import Mathlib

/-!
Shallow embedding of the variance bar chart visual (src/unnamed/part_000).

The visual receives a tabular data view from its host, derives a list of
category/value data points, and redraws an SVG surface on every update:
bars, optional data labels, and a "variance bubble" comparing two
configured bars.  Numbers are modelled as rationals; the drawing surface
is modelled as the list of drawn SVG elements.  Host- and library-provided
primitives that the repository does not define (the d3 scale constructors,
the d3 ".2s" number format and the JavaScript number-to-string routine)
are taken as parameters of the rendering functions; everything else is
translated directly from the source.
-/

namespace VarianceBarChart

/-- A JavaScript primitive value as it can appear in the category column of
the data view (`powerbi.PrimitiveValue`).  Numbers are restricted to the
integers, which is all the claims need; `NaN`, `undefined` and `Date`
values are not modelled. -/
inductive JSVal where
  | null : JSVal
  | num : ℤ → JSVal
  | str : String → JSVal
  | boolean : Bool → JSVal
deriving DecidableEq

/-- JavaScript truthiness of a `JSVal` (the test performed by
`cat ? ... : ...` in the source): `null`, `0`, `false` and the empty
string are falsy, everything else is truthy. -/
def JSVal.truthy : JSVal → Bool
  | .null => false
  | .num n => n != 0
  | .str s => s != ""
  | .boolean b => b

/-- JavaScript `toString()` of a `JSVal` (integer numbers print in
decimal, as `Int.repr` does). -/
def JSVal.toStr : JSVal → String
  | .null => "null"
  | .num n => toString n
  | .str s => s
  | .boolean b => if b then "true" else "false"

/-- One rendered bar, from the `BarDataPoint` interface of the source:
display label, numeric value and zero-based input position. -/
structure BarDataPoint where
  category : String
  value : ℚ
  index : ℕ
deriving DecidableEq

/-- The "Bar Settings" card of the formatting model (settings values as
consumed by `renderChart`; the card/descriptor machinery itself is host
code). -/
structure BarSettingsCard where
  barColor : String
  selectedBarColor : String
  showDataLabels : Bool
  labelFontSize : ℚ

/-- The "Variance Bubble" card of the formatting model.  The source field
`show` is a Lean keyword and is rendered here as `showBubble`. -/
structure VarianceBubbleCard where
  showBubble : Bool
  bubbleColor : String
  negativeBubbleColor : String
  fontSize : ℚ
  firstBarIndex : ℚ
  secondBarIndex : ℚ

/-- The categorical part of a data view: an optional first category column
and an optional first value column.  A column that is absent from the
arrays (`categorical.categories[0]` / `categorical.values[0]` undefined)
is `none`.  Value cells are `Option ℚ`: `none` is a null cell. -/
structure CategoricalData where
  categories : Option (List JSVal)
  values : Option (List (Option ℚ))

/-- A data view as handed to `update`: the categorical bundle may be
absent. -/
structure DataViewModel where
  categorical : Option CategoricalData

/-- The library primitives used by `renderChart` that are not defined in
this repository: `mkXScale cats w` builds the banded scale (position
lookup and bandwidth) for `d3.scaleBand().domain(cats).range([0,w])
.padding(0.25)`; `mkYScale lo hi h` builds the niced linear scale for
`d3.scaleLinear().domain([lo,hi]).nice().range([h,0])`; `fmt2s` is
`d3.format(".2s")`; `numStr` is the JavaScript number-to-string
conversion used in the tooltip text. -/
structure D3 where
  mkXScale : List String → ℚ → (String → Option ℚ) × ℚ
  mkYScale : ℚ → ℚ → ℚ → (ℚ → ℚ)
  fmt2s : ℚ → String
  numStr : ℚ → String

/-- An element drawn into the chart group.  Constant presentation
attributes of the source (corner radii 2, stroke widths, dash pattern
"4,3", fill opacity 0.9, label colors) are omitted; the geometry, fill
colors and text content are kept. -/
inductive SVGElem where
  | xAxis (y : ℚ)
  | yAxis
  | bar (x y w h : ℚ) (fill : String) (title : String)
  | barLabel (x y fontSize : ℚ) (text : String)
  | connector (x1 y1 x2 y2 : ℚ) (color : String)
  | bubbleCircle (cx cy r : ℚ) (fill : String)
  | bubbleText (x y fontSize : ℚ) (text : String)
deriving DecidableEq

/-- Elements drawn only by `renderVarianceBubble`: the connector lines,
the bubble circle and the bubble percentage text. -/
def SVGElem.isBubbleElem : SVGElem → Bool
  | .connector _ _ _ _ _ => true
  | .bubbleCircle _ _ _ _ => true
  | .bubbleText _ _ _ _ => true
  | _ => false

/-- Bar rectangles. -/
def SVGElem.isBar : SVGElem → Bool
  | .bar _ _ _ _ _ _ => true
  | _ => false

/-- The fill color of a bar rectangle, `none` for any other element. -/
def SVGElem.barFill : SVGElem → Option String
  | .bar _ _ _ _ fill _ => some fill
  | _ => none

/-- JavaScript `Math.round`: round to the nearest integer, halves toward
positive infinity. -/
def jsRound (q : ℚ) : ℤ := ⌊q + 1/2⌋

/-- The effective zero-based comparison index for a configured 1-based
index setting `v` and `n` data points:
`Math.max(0, Math.min(dataPoints.length - 1, Math.round(v) - 1))`. -/
def effectiveIndex (v : ℚ) (n : ℕ) : ℤ :=
  max 0 (min ((n : ℤ) - 1) (jsRound v - 1))

/-- `Number.prototype.toFixed(1)` for a non-negative argument: the integer
`n` with `n / 10` closest to `x` (ties choosing the larger `n`), printed
with one decimal digit. -/
def toFixed1Mag (x : ℚ) : String :=
  let n : ℤ := ⌊10 * x + 1/2⌋
  toString (n / 10) ++ "." ++ toString (n % 10)

/-- `Number.prototype.toFixed(1)`: a negative argument is formatted as the
sign followed by the formatted magnitude. -/
def toFixed1 (x : ℚ) : String :=
  if x < 0 then "-" ++ toFixed1Mag (-x) else toFixed1Mag x

/-- The variance percentage of `renderVarianceBubble`:
`((secondBar.value - firstBar.value) / Math.abs(firstBar.value)) * 100`. -/
def variancePct (f s : ℚ) : ℚ := (s - f) / |f| * 100

/-- The bubble label of `renderVarianceBubble`: an explicit plus sign when
the percentage is non-negative, the percentage to one decimal place, and
a percent sign. -/
def varianceLabel (f s : ℚ) : String :=
  (if 0 ≤ variancePct f s then "+" else "") ++ toFixed1 (variancePct f s) ++ "%"

/-- Modelled from the spec: the displayed variance text is the percentage
"rounded for display to one decimal place, with an explicit plus-sign
prefix when non-negative", followed by a percent sign. -/
def labelSpec (p : ℚ) : String :=
  (if 0 ≤ p then "+" else "") ++ toFixed1 p ++ "%"

/-- `d3.min(dataPoints, d => d.value) ?? 0`. -/
def minValue (ps : List BarDataPoint) : ℚ :=
  ((ps.map fun d => d.value).min?).getD 0

/-- `d3.max(dataPoints, d => d.value) ?? 1`. -/
def maxValue (ps : List BarDataPoint) : ℚ :=
  ((ps.map fun d => d.value).max?).getD 1

/-- The lower end of the y-scale domain:
`minValue < 0 ? minValue * 1.15 : 0`. -/
def yMinOf (ps : List BarDataPoint) : ℚ :=
  if minValue ps < 0 then minValue ps * (23/20) else 0

/-- The upper end of the y-scale domain:
`maxValue > 0 ? maxValue * 1.15 : 1`. -/
def yMaxOf (ps : List BarDataPoint) : ℚ :=
  if maxValue ps > 0 then maxValue ps * (23/20) else 1

/-- The effective default bar color, `barColor.value.value || "#4472C4"`
(the empty string is the only falsy string). -/
def effBarColor (s : BarSettingsCard) : String :=
  if s.barColor = "" then "#4472C4" else s.barColor

/-- The effective selected bar color,
`selectedBarColor.value.value || "#ED7D31"`. -/
def effSelectedColor (s : BarSettingsCard) : String :=
  if s.selectedBarColor = "" then "#ED7D31" else s.selectedBarColor

/-- The effective positive-variance bubble color,
`bubbleColor.value.value || "#70AD47"`. -/
def effBubbleColor (b : VarianceBubbleCard) : String :=
  if b.bubbleColor = "" then "#70AD47" else b.bubbleColor

/-- The effective negative-variance bubble color,
`negativeBubbleColor.value.value || "#FF0000"`. -/
def effNegBubbleColor (b : VarianceBubbleCard) : String :=
  if b.negativeBubbleColor = "" then "#FF0000" else b.negativeBubbleColor

/-- JavaScript array indexing `dataPoints[i]` with a possibly negative
index: out-of-range access yields undefined (`none`). -/
def jsIndex (ps : List BarDataPoint) (i : ℤ) : Option BarDataPoint :=
  if i < 0 then none else ps[i.toNat]?

/-- The data point derivation of `update`:
one point per category row, `category = cat ? cat.toString() : ""`,
`value = values.values[i] !== null ? values.values[i] : 0`, `index = i`.
(The claims only concern data views whose two columns have equal length,
so an out-of-range value cell is treated like a null cell.) -/
def mkDataPoints (cats : List JSVal) (vals : List (Option ℚ)) : List BarDataPoint :=
  cats.enum.map fun p =>
    { category := if p.2.truthy then p.2.toStr else ""
      value := (vals.getD p.1 none).getD 0
      index := p.1 }

/-- `clearChart`: remove every element of the chart group. -/
def clearChart (_surface : List SVGElem) : List SVGElem := []

/-- `renderVarianceBubble`: silently draw nothing when either referenced
bar is missing or the first bar's value is zero; otherwise draw the two
dashed connector lines, the bubble circle and the percentage text. -/
def renderVarianceBubble (ps : List BarDataPoint) (firstIdx secondIdx : ℤ)
    (xScale : String → Option ℚ) (bandwidth : ℚ) (yScale : ℚ → ℚ)
    (bub : VarianceBubbleCard) : List SVGElem :=
  match jsIndex ps firstIdx, jsIndex ps secondIdx with
  | some firstBar, some secondBar =>
    if firstBar.value = 0 then []
    else
      let pct := variancePct firstBar.value secondBar.value
      let bubbleColor := if 0 ≤ pct then effBubbleColor bub else effNegBubbleColor bub
      let fontSize := bub.fontSize
      let x1 := (xScale firstBar.category).getD 0 + bandwidth / 2
      let x2 := (xScale secondBar.category).getD 0 + bandwidth / 2
      let bubbleCx := (x1 + x2) / 2
      let topY1 := if 0 ≤ firstBar.value then yScale firstBar.value else yScale 0
      let topY2 := if 0 ≤ secondBar.value then yScale secondBar.value else yScale 0
      let bubbleCy := min topY1 topY2 - 30
      let bubbleRadius := max 22 (fontSize * (9/5))
      let lineY := bubbleCy + bubbleRadius
      let connectorY1 := min topY1 lineY
      let connectorY2 := min topY2 lineY
      [ .connector bubbleCx lineY x1 connectorY1 bubbleColor,
        .connector bubbleCx lineY x2 connectorY2 bubbleColor,
        .bubbleCircle bubbleCx bubbleCy bubbleRadius bubbleColor,
        .bubbleText bubbleCx (bubbleCy + fontSize * (7/20)) fontSize
          (varianceLabel firstBar.value secondBar.value) ]
  | _, _ => []

/-- The two axis groups drawn by `renderChart` (the x axis is translated
to the y position of zero). -/
def axisElemsOf (yScale : ℚ → ℚ) : List SVGElem :=
  [SVGElem.xAxis (yScale 0), SVGElem.yAxis]

/-- One bar rectangle of `renderChart`: band position and width, vertical
span from the zero line to the value, the selection-dependent fill, and
the tooltip title text. -/
def barElemOf (xScale : String → Option ℚ) (bandwidth : ℚ) (yScale : ℚ → ℚ)
    (bars : BarSettingsCard) (bub : VarianceBubbleCard)
    (selectedFirst selectedSecond : ℤ) (numStr : ℚ → String)
    (d : BarDataPoint) : SVGElem :=
  SVGElem.bar ((xScale d.category).getD 0)
    (if 0 ≤ d.value then yScale d.value else yScale 0)
    bandwidth |yScale d.value - yScale 0|
    (if ((d.index : ℤ) = selectedFirst ∨ (d.index : ℤ) = selectedSecond)
        ∧ bub.showBubble = true
     then effSelectedColor bars else effBarColor bars)
    (d.category ++ ": " ++ numStr d.value)

/-- One data label of `renderChart`: centered over the band, above the
bar for non-negative values and below for negative ones, text in the
d3 ".2s" format. -/
def labelElemOf (xScale : String → Option ℚ) (bandwidth : ℚ) (yScale : ℚ → ℚ)
    (bars : BarSettingsCard) (fmt2s : ℚ → String) (d : BarDataPoint) : SVGElem :=
  SVGElem.barLabel ((xScale d.category).getD 0 + bandwidth / 2)
    (if 0 ≤ d.value then yScale d.value - 4
     else yScale d.value + bars.labelFontSize + 4)
    bars.labelFontSize (fmt2s d.value)

/-- `renderChart`: clear and stop when the inner drawing area is
collapsed (margins top 40, right 30, bottom 60, left 60); otherwise clear
the chart group, then draw the two axes, one bar per data point, the
optional data labels, and the variance bubble when it is enabled and the
two clamped comparison indices differ. -/
def renderChart (surface : List SVGElem) (viewport : ℚ × ℚ)
    (bars : BarSettingsCard) (bub : VarianceBubbleCard) (d3 : D3)
    (ps : List BarDataPoint) : List SVGElem :=
  let innerWidth := viewport.1 - 60 - 30
  let innerHeight := viewport.2 - 40 - 60
  if innerWidth ≤ 0 ∨ innerHeight ≤ 0 then clearChart surface
  else
    let cleared := clearChart surface
    let selectedFirst := effectiveIndex bub.firstBarIndex ps.length
    let selectedSecond := effectiveIndex bub.secondBarIndex ps.length
    let xs := d3.mkXScale (ps.map fun d => d.category) innerWidth
    let xScale := xs.1
    let bandwidth := xs.2
    let yScale := d3.mkYScale (yMinOf ps) (yMaxOf ps) innerHeight
    let barElems := ps.map
      (barElemOf xScale bandwidth yScale bars bub selectedFirst selectedSecond d3.numStr)
    let labelElems :=
      if bars.showDataLabels then
        ps.map (labelElemOf xScale bandwidth yScale bars d3.fmt2s)
      else []
    let bubbleElems :=
      if bub.showBubble = true ∧ selectedFirst ≠ selectedSecond then
        renderVarianceBubble ps selectedFirst selectedSecond xScale bandwidth yScale bub
      else []
    cleared ++ axisElemsOf yScale ++ barElems ++ labelElems ++ bubbleElems

/-- `update`: clear when the data view or its categorical bundle is
absent, or when either the category column or the value column is absent;
otherwise derive the data points and render.  The settings cards are
passed in (the host service populates them from the data view). -/
def update (surface : List SVGElem) (dv : Option DataViewModel)
    (viewport : ℚ × ℚ) (bars : BarSettingsCard) (bub : VarianceBubbleCard)
    (d3 : D3) : List SVGElem :=
  match dv with
  | none => clearChart surface
  | some d =>
    match d.categorical with
    | none => clearChart surface
    | some c =>
      match c.categories, c.values with
      | some cats, some vals =>
          renderChart surface viewport bars bub d3 (mkDataPoints cats vals)
      | _, _ => clearChart surface

/-! ## Helper lemmas -/

theorem toFixed1_eval_nonneg (x : ℚ) (n : ℤ) (h0 : 0 ≤ x)
    (hn : ⌊10 * x + 1/2⌋ = n) :
    toFixed1 x = toString (n / 10) ++ "." ++ toString (n % 10) := by
  unfold toFixed1
  rw [if_neg (not_lt.mpr h0)]
  unfold toFixed1Mag
  rw [hn]

theorem toFixed1_eval_neg (x : ℚ) (n : ℤ) (h0 : x < 0)
    (hn : ⌊10 * (-x) + 1/2⌋ = n) :
    toFixed1 x = "-" ++ (toString (n / 10) ++ "." ++ toString (n % 10)) := by
  unfold toFixed1
  rw [if_pos h0]
  unfold toFixed1Mag
  rw [hn]

/-! ## Claims -/

/-- C1: for every pair of compared bars with the first bar's value
non-zero, the variance percentage equals (second − first) / |first| × 100,
the displayed label is this value rounded to one decimal place with an
explicit plus sign when the percentage is non-negative, and in particular
(100, 150) displays "+50.0%", (100, 50) displays "-50.0%", and
(−100, −50) displays "+50.0%". -/
theorem variance_pct_and_label (f s : ℚ) (hf : f ≠ 0) :
    variancePct f s = (s - f) / |f| * 100 ∧
    varianceLabel f s = labelSpec (variancePct f s) ∧
    varianceLabel 100 150 = "+50.0%" ∧
    varianceLabel 100 50 = "-50.0%" ∧
    varianceLabel (-100) (-50) = "+50.0%" := by
  refine ⟨rfl, rfl, ?_, ?_, ?_⟩
  · have h1 : variancePct 100 150 = 50 := by unfold variancePct; norm_num
    unfold varianceLabel
    rw [h1, if_pos (by norm_num : (0:ℚ) ≤ 50),
      toFixed1_eval_nonneg 50 500 (by norm_num)
        (by rw [Int.floor_eq_iff]; norm_num)]
    decide
  · have h1 : variancePct 100 50 = -50 := by unfold variancePct; norm_num
    unfold varianceLabel
    rw [h1, if_neg (by norm_num : ¬ (0:ℚ) ≤ -50),
      toFixed1_eval_neg (-50) 500 (by norm_num)
        (by rw [Int.floor_eq_iff]; norm_num)]
    decide
  · have h1 : variancePct (-100) (-50) = 50 := by
      unfold variancePct
      rw [abs_of_nonpos (by norm_num : (-100:ℚ) ≤ 0)]
      norm_num
    unfold varianceLabel
    rw [h1, if_pos (by norm_num : (0:ℚ) ≤ 50),
      toFixed1_eval_nonneg 50 500 (by norm_num)
        (by rw [Int.floor_eq_iff]; norm_num)]
    decide

/-- Witness for the C1 theorem at the concrete pair (100, 150). -/
theorem variance_pct_and_label_witness :
    (100:ℚ) ≠ 0 ∧ varianceLabel 100 150 = "+50.0%" :=
  ⟨by norm_num, (variance_pct_and_label 100 150 (by norm_num)).2.2.1⟩

/-- C2 counterexample: for a data point list of length 0, the effective
index computed by the code is 0, which is not within [0, N−1] = [0, −1];
so the claim fails as stated for every length N. -/
theorem effectiveIndex_empty_cex :
    effectiveIndex 1 0 = 0 ∧ ¬ (effectiveIndex 1 0 ≤ (0:ℤ) - 1) := by
  have h : jsRound (1:ℚ) = 1 := by
    unfold jsRound
    rw [Int.floor_eq_iff]
    norm_num
  unfold effectiveIndex
  rw [h]
  decide

/-- C2 (amended: at least one data point): for every configured 1-based
index setting and every data point list of length N ≥ 1, the effective
index is round-to-nearest (halves up), minus 1, clamped into [0, N−1],
and the result lies within [0, N−1].  (For N = 0 the code yields 0, which
lies outside the empty range.) -/
theorem effectiveIndex_in_range (v : ℚ) (n : ℕ) (hn : 1 ≤ n) :
    effectiveIndex v n = max 0 (min ((n : ℤ) - 1) (⌊v + 1/2⌋ - 1)) ∧
    0 ≤ effectiveIndex v n ∧ effectiveIndex v n ≤ (n : ℤ) - 1 := by
  refine ⟨rfl, le_max_left _ _, ?_⟩
  have h0 : (0:ℤ) ≤ (n : ℤ) - 1 := by omega
  exact max_le h0 (min_le_left _ _)

/-- Witness for the C2 theorem at the fractional setting 5/2 with two
data points. -/
theorem effectiveIndex_in_range_witness :
    1 ≤ 2 ∧ (0 ≤ effectiveIndex (5/2) 2 ∧ effectiveIndex (5/2) 2 ≤ (2:ℤ) - 1) :=
  ⟨by norm_num, (effectiveIndex_in_range (5/2) 2 (by norm_num)).2⟩

theorem mkDataPoints_length (cats : List JSVal) (vals : List (Option ℚ)) :
    (mkDataPoints cats vals).length = cats.length := by
  simp [mkDataPoints]

theorem mkDataPoints_getD (cats : List JSVal) (vals : List (Option ℚ))
    (i : ℕ) (hi : i < cats.length) :
    (mkDataPoints cats vals).getD i ⟨"", 0, 0⟩ =
      { category := if (cats.getD i JSVal.null).truthy
                    then (cats.getD i JSVal.null).toStr else ""
        value := (vals.getD i none).getD 0
        index := i } := by
  have hlen : i < (mkDataPoints cats vals).length := by
    rw [mkDataPoints_length]; exact hi
  rw [List.getD_eq_getElem _ _ hlen]
  unfold mkDataPoints
  simp only [List.getElem_map, List.getElem_enum]
  rw [List.getD_eq_getElem cats _ hi]

/-- C3 counterexample: for the one-row result set whose category value is
the (non-null) number 0, the derived category is the empty string, not
the string form "0" of the value; so "empty string only if null" fails. -/
theorem mkDataPoints_falsy_category_cex :
    JSVal.num 0 ≠ JSVal.null ∧
    ((mkDataPoints [JSVal.num 0] [some 5]).map fun d => d.category) = [""] ∧
    (JSVal.num 0).toStr = "0" := by
  refine ⟨by decide, ?_, by decide⟩
  simp [mkDataPoints, JSVal.truthy]

/-- C3 (amended: the category is the string form of the category value
when that value is truthy and the empty string when it is falsy — null,
0, false or the empty string): the derived list has exactly N elements in
input row order, element i carrying index i, that category string, and
the numeric value with null replaced by 0. -/
theorem mkDataPoints_shape (cats : List JSVal) (vals : List (Option ℚ)) :
    (mkDataPoints cats vals).length = cats.length ∧
    ∀ i, i < cats.length →
      (mkDataPoints cats vals).getD i ⟨"", 0, 0⟩ =
        { category := if (cats.getD i JSVal.null).truthy
                      then (cats.getD i JSVal.null).toStr else ""
          value := (vals.getD i none).getD 0
          index := i } :=
  ⟨mkDataPoints_length cats vals, fun i hi => mkDataPoints_getD cats vals i hi⟩

/-- Witness for the C3 theorem on a one-row result set. -/
theorem mkDataPoints_shape_witness :
    0 < [JSVal.str "A"].length ∧
    (mkDataPoints [JSVal.str "A"] [some 7]).getD 0 ⟨"", 0, 0⟩ =
      { category := if ([JSVal.str "A"].getD 0 JSVal.null).truthy
                    then ([JSVal.str "A"].getD 0 JSVal.null).toStr else ""
        value := (([some 7] : List (Option ℚ)).getD 0 none).getD 0
        index := 0 } :=
  ⟨by decide, (mkDataPoints_shape [JSVal.str "A"] [some 7]).2 0 (by decide)⟩

/-- C10: a falsy category value (null, the number 0, the boolean false,
or the empty string) yields the empty-string category, and only a truthy
category value is converted with toString. -/
theorem falsy_category_empty (cats : List JSVal) (vals : List (Option ℚ))
    (i : ℕ) (hi : i < cats.length) :
    ((cats.getD i JSVal.null).truthy = false →
      ((mkDataPoints cats vals).getD i ⟨"", 0, 0⟩).category = "") ∧
    ((cats.getD i JSVal.null).truthy = true →
      ((mkDataPoints cats vals).getD i ⟨"", 0, 0⟩).category
        = (cats.getD i JSVal.null).toStr) ∧
    (JSVal.num 0).truthy = false ∧
    (JSVal.boolean false).truthy = false ∧
    (JSVal.str "").truthy = false := by
  rw [mkDataPoints_getD cats vals i hi]
  refine ⟨fun h => ?_, fun h => ?_, by decide, by decide, by decide⟩
  · show (if (cats.getD i JSVal.null).truthy
          then (cats.getD i JSVal.null).toStr else "") = ""
    rw [h]
    rfl
  · show (if (cats.getD i JSVal.null).truthy
          then (cats.getD i JSVal.null).toStr else "")
        = (cats.getD i JSVal.null).toStr
    rw [h]
    rfl

/-- Witness for the C10 theorem: the category value 0 is falsy and its
derived category is the empty string. -/
theorem falsy_category_empty_witness :
    0 < [JSVal.num 0].length ∧ (JSVal.num 0).truthy = false ∧
    ((mkDataPoints [JSVal.num 0] [some 5]).getD 0 ⟨"", 0, 0⟩).category = "" :=
  ⟨by decide, by decide,
    (falsy_category_empty [JSVal.num 0] [some 5] 0 (by decide)).1 (by decide)⟩

/-- C7: for a non-empty data point list the y-domain minimum is 0 when
all values are ≥ 0 and 1.15 × the true minimum when some value is
negative; the y-domain maximum is 1 when all values are ≤ 0 and 1.15 ×
the true maximum when some value is positive (the domain is niced by the
d3 scale afterwards). -/
theorem y_domain (ps : List BarDataPoint) (hne : ps ≠ []) :
    ((∀ p ∈ ps, 0 ≤ p.value) → yMinOf ps = 0) ∧
    ((∃ p ∈ ps, p.value < 0) →
      ∃ m ∈ ps.map fun d => d.value,
        (∀ v ∈ ps.map fun d => d.value, m ≤ v) ∧ yMinOf ps = m * (23/20)) ∧
    ((∀ p ∈ ps, p.value ≤ 0) → yMaxOf ps = 1) ∧
    ((∃ p ∈ ps, 0 < p.value) →
      ∃ M ∈ ps.map fun d => d.value,
        (∀ v ∈ ps.map fun d => d.value, v ≤ M) ∧ yMaxOf ps = M * (23/20)) := by
  haveI : Std.Antisymm ((· : ℚ) ≤ ·) := ⟨fun h h' => le_antisymm h h'⟩
  have hl : (ps.map fun d => d.value) ≠ [] := by simpa using hne
  cases hmin : (ps.map fun d => d.value).min? with
  | none => exact absurd (List.min?_eq_none_iff.mp hmin) hl
  | some m =>
  cases hmax : (ps.map fun d => d.value).max? with
  | none => exact absurd (List.max?_eq_none_iff.mp hmax) hl
  | some M =>
  have hminspec :=
    (List.min?_eq_some_iff le_refl min_choice (fun _ _ _ => le_min_iff)).mp hmin
  have hmaxspec :=
    (List.max?_eq_some_iff le_refl max_choice (fun _ _ _ => max_le_iff)).mp hmax
  have hminval : minValue ps = m := by unfold minValue; rw [hmin]; rfl
  have hmaxval : maxValue ps = M := by unfold maxValue; rw [hmax]; rfl
  obtain ⟨pm, hpm, hpmval⟩ := List.mem_map.mp hminspec.1
  obtain ⟨pM, hpM, hpMval⟩ := List.mem_map.mp hmaxspec.1
  refine ⟨fun hall => ?_, fun hex => ?_, fun hall => ?_, fun hex => ?_⟩
  · have h0 : 0 ≤ m := hpmval ▸ hall pm hpm
    unfold yMinOf
    rw [hminval, if_neg (not_lt.mpr h0)]
  · obtain ⟨p, hp, hpneg⟩ := hex
    have hm : m < 0 :=
      lt_of_le_of_lt (hminspec.2 p.value (List.mem_map.mpr ⟨p, hp, rfl⟩)) hpneg
    refine ⟨m, hminspec.1, hminspec.2, ?_⟩
    unfold yMinOf
    rw [hminval, if_pos hm]
  · have h0 : M ≤ 0 := hpMval ▸ hall pM hpM
    unfold yMaxOf
    rw [hmaxval, if_neg (not_lt.mpr h0)]
  · obtain ⟨p, hp, hppos⟩ := hex
    have hM : 0 < M :=
      lt_of_lt_of_le hppos (hmaxspec.2 p.value (List.mem_map.mpr ⟨p, hp, rfl⟩))
    refine ⟨M, hmaxspec.1, hmaxspec.2, ?_⟩
    unfold yMaxOf
    rw [hmaxval, if_pos hM]

/-- Witness for the C7 theorem on a list with one negative value. -/
theorem y_domain_witness :
    ([⟨"A", -2, 0⟩] : List BarDataPoint) ≠ [] ∧
    (∃ m ∈ ([⟨"A", -2, 0⟩] : List BarDataPoint).map fun d => d.value,
      (∀ v ∈ ([⟨"A", -2, 0⟩] : List BarDataPoint).map fun d => d.value, m ≤ v) ∧
      yMinOf [⟨"A", -2, 0⟩] = m * (23/20)) :=
  ⟨by simp, (y_domain [⟨"A", -2, 0⟩] (by simp)).2.1
    ⟨⟨"A", -2, 0⟩, by simp, by norm_num⟩⟩

theorem filter_map_false {α : Type} (p : SVGElem → Bool) (l : List α)
    (g : α → SVGElem) (hg : ∀ a, p (g a) = false) :
    (l.map g).filter p = [] := by
  induction l with
  | nil => rfl
  | cons a l ih => simp [hg, ih]

theorem filter_map_true {α : Type} (p : SVGElem → Bool) (l : List α)
    (g : α → SVGElem) (hg : ∀ a, p (g a) = true) :
    (l.map g).filter p = l.map g := by
  induction l with
  | nil => rfl
  | cons a l ih => simp [hg, ih]

theorem filterMap_barFill_map {α : Type} (l : List α) (g : α → SVGElem)
    (c : α → String) (hg : ∀ a, (g a).barFill = some (c a)) :
    (l.map g).filterMap SVGElem.barFill = l.map c := by
  induction l with
  | nil => rfl
  | cons a l ih => simp [hg, ih]

theorem filterMap_barFill_map_none {α : Type} (l : List α) (g : α → SVGElem)
    (hg : ∀ a, (g a).barFill = none) :
    (l.map g).filterMap SVGElem.barFill = [] := by
  induction l with
  | nil => rfl
  | cons a l ih => simp [hg, ih]

theorem renderVarianceBubble_eq_nil (ps : List BarDataPoint)
    (fi si : ℤ) (xsc : String → Option ℚ) (bw : ℚ) (ysc : ℚ → ℚ)
    (bub : VarianceBubbleCard)
    (h : jsIndex ps fi = none ∨ jsIndex ps si = none ∨
         (∃ b, jsIndex ps fi = some b ∧ b.value = 0)) :
    renderVarianceBubble ps fi si xsc bw ysc bub = [] := by
  rcases h with h | h | ⟨b, hb, hbv⟩
  · cases hsi : jsIndex ps si <;> simp [renderVarianceBubble, h, hsi]
  · cases hfi : jsIndex ps fi <;> simp [renderVarianceBubble, h, hfi]
  · cases hsi : jsIndex ps si <;> simp [renderVarianceBubble, hb, hbv, hsi]

theorem renderVarianceBubble_filter_isBar (ps : List BarDataPoint)
    (fi si : ℤ) (xsc : String → Option ℚ) (bw : ℚ) (ysc : ℚ → ℚ)
    (bub : VarianceBubbleCard) :
    (renderVarianceBubble ps fi si xsc bw ysc bub).filter SVGElem.isBar = [] := by
  unfold renderVarianceBubble
  split
  · split
    · rfl
    · simp [SVGElem.isBar]
  · rfl

theorem renderVarianceBubble_filterMap_barFill (ps : List BarDataPoint)
    (fi si : ℤ) (xsc : String → Option ℚ) (bw : ℚ) (ysc : ℚ → ℚ)
    (bub : VarianceBubbleCard) :
    (renderVarianceBubble ps fi si xsc bw ysc bub).filterMap SVGElem.barFill
      = [] := by
  unfold renderVarianceBubble
  split
  · split
    · rfl
    · simp [SVGElem.barFill]
  · rfl

/-- The band scale built by `renderChart`. -/
def xScaleOf (d3 : D3) (vp : ℚ × ℚ) (ps : List BarDataPoint) : String → Option ℚ :=
  (d3.mkXScale (ps.map fun d => d.category) (vp.1 - 60 - 30)).1

/-- The bandwidth of the band scale built by `renderChart`. -/
def bandwidthOf (d3 : D3) (vp : ℚ × ℚ) (ps : List BarDataPoint) : ℚ :=
  (d3.mkXScale (ps.map fun d => d.category) (vp.1 - 60 - 30)).2

/-- The y scale built by `renderChart` over the computed domain. -/
def yScaleOf (d3 : D3) (vp : ℚ × ℚ) (ps : List BarDataPoint) : ℚ → ℚ :=
  d3.mkYScale (yMinOf ps) (yMaxOf ps) (vp.2 - 40 - 60)

theorem renderChart_collapsed (surface : List SVGElem) (vp : ℚ × ℚ)
    (bars : BarSettingsCard) (bub : VarianceBubbleCard) (d3 : D3)
    (ps : List BarDataPoint)
    (hdim : vp.1 - 60 - 30 ≤ 0 ∨ vp.2 - 40 - 60 ≤ 0) :
    renderChart surface vp bars bub d3 ps = [] := by
  dsimp only [renderChart, clearChart]
  rw [if_pos hdim]

theorem renderChart_eq (surface : List SVGElem) (vp : ℚ × ℚ)
    (bars : BarSettingsCard) (bub : VarianceBubbleCard) (d3 : D3)
    (ps : List BarDataPoint)
    (hdim : ¬(vp.1 - 60 - 30 ≤ 0 ∨ vp.2 - 40 - 60 ≤ 0)) :
    renderChart surface vp bars bub d3 ps =
      axisElemsOf (yScaleOf d3 vp ps)
      ++ ps.map (barElemOf (xScaleOf d3 vp ps) (bandwidthOf d3 vp ps)
           (yScaleOf d3 vp ps) bars bub
           (effectiveIndex bub.firstBarIndex ps.length)
           (effectiveIndex bub.secondBarIndex ps.length) d3.numStr)
      ++ (if bars.showDataLabels = true then
            ps.map (labelElemOf (xScaleOf d3 vp ps) (bandwidthOf d3 vp ps)
              (yScaleOf d3 vp ps) bars d3.fmt2s)
          else [])
      ++ (if bub.showBubble = true ∧
            effectiveIndex bub.firstBarIndex ps.length
              ≠ effectiveIndex bub.secondBarIndex ps.length then
            renderVarianceBubble ps (effectiveIndex bub.firstBarIndex ps.length)
              (effectiveIndex bub.secondBarIndex ps.length) (xScaleOf d3 vp ps)
              (bandwidthOf d3 vp ps) (yScaleOf d3 vp ps) bub
          else []) := by
  dsimp only [renderChart, clearChart]
  rw [if_neg hdim]
  rfl

/-- C5: when the two clamped comparison indices are equal, no variance
bubble element (connector line, circle, or percentage text) is drawn,
whatever the enable toggle says. -/
theorem equal_indices_no_bubble (surface : List SVGElem) (vp : ℚ × ℚ)
    (bars : BarSettingsCard) (bub : VarianceBubbleCard) (d3 : D3)
    (ps : List BarDataPoint)
    (heq : effectiveIndex bub.firstBarIndex ps.length
           = effectiveIndex bub.secondBarIndex ps.length) :
    (renderChart surface vp bars bub d3 ps).filter SVGElem.isBubbleElem = [] := by
  by_cases hdim : vp.1 - 60 - 30 ≤ 0 ∨ vp.2 - 40 - 60 ≤ 0
  · rw [renderChart_collapsed _ _ _ _ _ _ hdim]
    rfl
  · rw [renderChart_eq _ _ _ _ _ _ hdim, heq]
    rcases hsd : bars.showDataLabels <;>
      simp [hsd, List.filter_append, List.filter_eq_nil_iff, axisElemsOf,
        SVGElem.isBubbleElem, barElemOf, labelElemOf]

/-- Witness for the C5 theorem: both indices configured to the same bar. -/
theorem equal_indices_no_bubble_witness :
    effectiveIndex ((⟨true, "", "", 12, 1, 1⟩ : VarianceBubbleCard).firstBarIndex)
        ([⟨"A", 1, 0⟩, ⟨"B", 2, 1⟩] : List BarDataPoint).length
      = effectiveIndex ((⟨true, "", "", 12, 1, 1⟩ : VarianceBubbleCard).secondBarIndex)
        ([⟨"A", 1, 0⟩, ⟨"B", 2, 1⟩] : List BarDataPoint).length ∧
    (renderChart [] ((200 : ℚ), (200 : ℚ)) ⟨"", "", false, 11⟩
        ⟨true, "", "", 12, 1, 1⟩
        ⟨fun _ _ => (fun _ => some 0, 10), fun _ _ _ q => q, fun _ => "", fun _ => ""⟩
        [⟨"A", 1, 0⟩, ⟨"B", 2, 1⟩]).filter SVGElem.isBubbleElem = [] :=
  ⟨rfl, equal_indices_no_bubble _ _ _ _ _ _ rfl⟩

/-- C6: when either referenced bar is missing or the first compared bar's
value is exactly 0, no variance bubble element is drawn, while (for a
non-collapsed viewport) the bars themselves are all still drawn; every
code path is a total function, so no error is raised. -/
theorem zero_first_value_no_bubble (surface : List SVGElem) (vp : ℚ × ℚ)
    (bars : BarSettingsCard) (bub : VarianceBubbleCard) (d3 : D3)
    (ps : List BarDataPoint)
    (h : jsIndex ps (effectiveIndex bub.firstBarIndex ps.length) = none ∨
         jsIndex ps (effectiveIndex bub.secondBarIndex ps.length) = none ∨
         (∃ b, jsIndex ps (effectiveIndex bub.firstBarIndex ps.length) = some b
            ∧ b.value = 0)) :
    (renderChart surface vp bars bub d3 ps).filter SVGElem.isBubbleElem = [] ∧
    (¬(vp.1 - 60 - 30 ≤ 0 ∨ vp.2 - 40 - 60 ≤ 0) →
      ((renderChart surface vp bars bub d3 ps).filter SVGElem.isBar).length
        = ps.length) := by
  constructor
  · by_cases hdim : vp.1 - 60 - 30 ≤ 0 ∨ vp.2 - 40 - 60 ≤ 0
    · rw [renderChart_collapsed _ _ _ _ _ _ hdim]
      rfl
    · rw [renderChart_eq _ _ _ _ _ _ hdim,
        renderVarianceBubble_eq_nil _ _ _ _ _ _ _ h]
      rcases hsd : bars.showDataLabels <;>
        simp [hsd, List.filter_append, List.filter_eq_nil_iff, axisElemsOf,
          SVGElem.isBubbleElem, barElemOf, labelElemOf, ite_self]
  · intro hdim
    rw [renderChart_eq _ _ _ _ _ _ hdim]
    rw [List.filter_append, List.filter_append, List.filter_append]
    rw [filter_map_true SVGElem.isBar ps
      (barElemOf (xScaleOf d3 vp ps) (bandwidthOf d3 vp ps) (yScaleOf d3 vp ps)
        bars bub (effectiveIndex bub.firstBarIndex ps.length)
        (effectiveIndex bub.secondBarIndex ps.length) d3.numStr) (fun d => rfl)]
    have hax : (axisElemsOf (yScaleOf d3 vp ps)).filter SVGElem.isBar = [] := rfl
    rw [hax, List.nil_append]
    have hlab : (if bars.showDataLabels = true then
        ps.map (labelElemOf (xScaleOf d3 vp ps) (bandwidthOf d3 vp ps)
          (yScaleOf d3 vp ps) bars d3.fmt2s)
      else []).filter SVGElem.isBar = [] := by
      by_cases hsd : bars.showDataLabels = true
      · rw [if_pos hsd, filter_map_false SVGElem.isBar ps
          (labelElemOf (xScaleOf d3 vp ps) (bandwidthOf d3 vp ps)
            (yScaleOf d3 vp ps) bars d3.fmt2s) (fun d => rfl)]
      · rw [if_neg hsd]
        rfl
    have hbub : (if bub.showBubble = true ∧
        effectiveIndex bub.firstBarIndex ps.length
          ≠ effectiveIndex bub.secondBarIndex ps.length then
        renderVarianceBubble ps (effectiveIndex bub.firstBarIndex ps.length)
          (effectiveIndex bub.secondBarIndex ps.length) (xScaleOf d3 vp ps)
          (bandwidthOf d3 vp ps) (yScaleOf d3 vp ps) bub
      else []).filter SVGElem.isBar = [] := by
      by_cases hbc : bub.showBubble = true ∧
          effectiveIndex bub.firstBarIndex ps.length
            ≠ effectiveIndex bub.secondBarIndex ps.length
      · rw [if_pos hbc, renderVarianceBubble_filter_isBar]
      · rw [if_neg hbc]
        rfl
    rw [hlab, hbub]
    simp

/-- Witness for the C6 theorem: an empty data point list, where both
referenced bars are missing. -/
theorem zero_first_value_no_bubble_witness :
    (jsIndex ([] : List BarDataPoint)
        (effectiveIndex ((⟨true, "", "", 12, 1, 2⟩ : VarianceBubbleCard).firstBarIndex)
          ([] : List BarDataPoint).length) = none ∨
      jsIndex ([] : List BarDataPoint)
        (effectiveIndex ((⟨true, "", "", 12, 1, 2⟩ : VarianceBubbleCard).secondBarIndex)
          ([] : List BarDataPoint).length) = none ∨
      (∃ b, jsIndex ([] : List BarDataPoint)
          (effectiveIndex ((⟨true, "", "", 12, 1, 2⟩ : VarianceBubbleCard).firstBarIndex)
            ([] : List BarDataPoint).length) = some b ∧ b.value = 0)) ∧
    ((renderChart [] ((200 : ℚ), (200 : ℚ)) ⟨"", "", false, 11⟩
        ⟨true, "", "", 12, 1, 2⟩
        ⟨fun _ _ => (fun _ => some 0, 10), fun _ _ _ q => q, fun _ => "", fun _ => ""⟩
        []).filter SVGElem.isBubbleElem = [] ∧
      (¬(((200 : ℚ), (200 : ℚ)).1 - 60 - 30 ≤ 0 ∨
          ((200 : ℚ), (200 : ℚ)).2 - 40 - 60 ≤ 0) →
        ((renderChart [] ((200 : ℚ), (200 : ℚ)) ⟨"", "", false, 11⟩
            ⟨true, "", "", 12, 1, 2⟩
            ⟨fun _ _ => (fun _ => some 0, 10), fun _ _ _ q => q, fun _ => "", fun _ => ""⟩
            []).filter SVGElem.isBar).length
          = ([] : List BarDataPoint).length)) := by
  have hnone : jsIndex ([] : List BarDataPoint)
      (effectiveIndex ((⟨true, "", "", 12, 1, 2⟩ : VarianceBubbleCard).firstBarIndex)
        ([] : List BarDataPoint).length) = none := by
    unfold jsIndex
    split
    · rfl
    · simp
  exact ⟨Or.inl hnone, zero_first_value_no_bubble _ _ _ _ _ _ (Or.inl hnone)⟩

/-- C4: in a rendered chart (non-collapsed viewport, and the two
configured colors distinct so that equality of colors is equality of
roles), the i-th bar's fill equals the "selected" color exactly when the
point's index equals one of the two clamped comparison indices and the
variance bubble toggle is enabled; otherwise it is the default color. -/
theorem bar_fill_selected_iff (surface : List SVGElem) (vp : ℚ × ℚ)
    (bars : BarSettingsCard) (bub : VarianceBubbleCard) (d3 : D3)
    (ps : List BarDataPoint)
    (hdim : ¬(vp.1 - 60 - 30 ≤ 0 ∨ vp.2 - 40 - 60 ≤ 0))
    (hc : effSelectedColor bars ≠ effBarColor bars)
    (i : ℕ) (hi : i < ps.length) :
    ((renderChart surface vp bars bub d3 ps).filterMap SVGElem.barFill).getD i ""
        = effSelectedColor bars
      ↔ ((((ps.getD i ⟨"", 0, 0⟩).index : ℤ)
            = effectiveIndex bub.firstBarIndex ps.length ∨
          ((ps.getD i ⟨"", 0, 0⟩).index : ℤ)
            = effectiveIndex bub.secondBarIndex ps.length)
          ∧ bub.showBubble = true) := by
  have hfills : (renderChart surface vp bars bub d3 ps).filterMap SVGElem.barFill
      = ps.map (fun d =>
          if (((d.index : ℤ) = effectiveIndex bub.firstBarIndex ps.length ∨
               (d.index : ℤ) = effectiveIndex bub.secondBarIndex ps.length)
              ∧ bub.showBubble = true)
          then effSelectedColor bars else effBarColor bars) := by
    rw [renderChart_eq _ _ _ _ _ _ hdim]
    rw [List.filterMap_append, List.filterMap_append, List.filterMap_append]
    have hax : (axisElemsOf (yScaleOf d3 vp ps)).filterMap SVGElem.barFill = [] :=
      rfl
    rw [hax, List.nil_append]
    rw [filterMap_barFill_map ps
      (barElemOf (xScaleOf d3 vp ps) (bandwidthOf d3 vp ps) (yScaleOf d3 vp ps)
        bars bub (effectiveIndex bub.firstBarIndex ps.length)
        (effectiveIndex bub.secondBarIndex ps.length) d3.numStr)
      (fun d =>
        if (((d.index : ℤ) = effectiveIndex bub.firstBarIndex ps.length ∨
             (d.index : ℤ) = effectiveIndex bub.secondBarIndex ps.length)
            ∧ bub.showBubble = true)
        then effSelectedColor bars else effBarColor bars)
      (fun d => rfl)]
    have hlab : (if bars.showDataLabels = true then
        ps.map (labelElemOf (xScaleOf d3 vp ps) (bandwidthOf d3 vp ps)
          (yScaleOf d3 vp ps) bars d3.fmt2s)
      else []).filterMap SVGElem.barFill = [] := by
      by_cases hsd : bars.showDataLabels = true
      · rw [if_pos hsd, filterMap_barFill_map_none ps
          (labelElemOf (xScaleOf d3 vp ps) (bandwidthOf d3 vp ps)
            (yScaleOf d3 vp ps) bars d3.fmt2s) (fun d => rfl)]
      · rw [if_neg hsd]
        rfl
    have hbub : (if bub.showBubble = true ∧
        effectiveIndex bub.firstBarIndex ps.length
          ≠ effectiveIndex bub.secondBarIndex ps.length then
        renderVarianceBubble ps (effectiveIndex bub.firstBarIndex ps.length)
          (effectiveIndex bub.secondBarIndex ps.length) (xScaleOf d3 vp ps)
          (bandwidthOf d3 vp ps) (yScaleOf d3 vp ps) bub
      else []).filterMap SVGElem.barFill = [] := by
      by_cases hbc : bub.showBubble = true ∧
          effectiveIndex bub.firstBarIndex ps.length
            ≠ effectiveIndex bub.secondBarIndex ps.length
      · rw [if_pos hbc, renderVarianceBubble_filterMap_barFill]
      · rw [if_neg hbc]
        rfl
    rw [hlab, hbub]
    simp
  rw [hfills]
  rw [List.getD_eq_getElem _ _ (by simpa using hi)]
  simp only [List.getElem_map]
  rw [List.getD_eq_getElem ps _ hi]
  split_ifs with hcond
  · exact iff_of_true rfl hcond
  · exact iff_of_false (Ne.symm hc) hcond

/-- Witness for the C4 theorem: two bars, comparison indices 1 and 2,
bubble enabled, default colors; the first bar's fill is the selected
color. -/
theorem bar_fill_selected_iff_witness :
    (¬(((200 : ℚ), (200 : ℚ)).1 - 60 - 30 ≤ 0 ∨
        ((200 : ℚ), (200 : ℚ)).2 - 40 - 60 ≤ 0)) ∧
    effSelectedColor ⟨"", "", false, 11⟩ ≠ effBarColor ⟨"", "", false, 11⟩ ∧
    0 < ([⟨"A", 1, 0⟩, ⟨"B", 2, 1⟩] : List BarDataPoint).length ∧
    (((renderChart [] ((200 : ℚ), (200 : ℚ)) ⟨"", "", false, 11⟩
          ⟨true, "", "", 12, 1, 2⟩
          ⟨fun _ _ => (fun _ => some 0, 10), fun _ _ _ q => q, fun _ => "",
            fun _ => ""⟩
          [⟨"A", 1, 0⟩, ⟨"B", 2, 1⟩]).filterMap SVGElem.barFill).getD 0 ""
        = effSelectedColor ⟨"", "", false, 11⟩
      ↔ ((((([⟨"A", 1, 0⟩, ⟨"B", 2, 1⟩] : List BarDataPoint).getD 0
              ⟨"", 0, 0⟩).index : ℤ)
            = effectiveIndex
                ((⟨true, "", "", 12, 1, 2⟩ : VarianceBubbleCard).firstBarIndex)
                ([⟨"A", 1, 0⟩, ⟨"B", 2, 1⟩] : List BarDataPoint).length ∨
          ((([⟨"A", 1, 0⟩, ⟨"B", 2, 1⟩] : List BarDataPoint).getD 0
              ⟨"", 0, 0⟩).index : ℤ)
            = effectiveIndex
                ((⟨true, "", "", 12, 1, 2⟩ : VarianceBubbleCard).secondBarIndex)
                ([⟨"A", 1, 0⟩, ⟨"B", 2, 1⟩] : List BarDataPoint).length)
          ∧ (⟨true, "", "", 12, 1, 2⟩ : VarianceBubbleCard).showBubble = true)) :=
  ⟨by norm_num, by decide, by decide,
    bar_fill_selected_iff [] ((200 : ℚ), (200 : ℚ)) ⟨"", "", false, 11⟩
      ⟨true, "", "", 12, 1, 2⟩
      ⟨fun _ _ => (fun _ => some 0, 10), fun _ _ _ q => q, fun _ => "",
        fun _ => ""⟩
      [⟨"A", 1, 0⟩, ⟨"B", 2, 1⟩] (by norm_num) (by decide) 0 (by decide)⟩

/-- C8: when the data view is absent, its categorical bundle is absent,
or either the category column or the value column is absent, update
leaves the drawing surface empty (clear and return, no further work; the
function is total, so no error reaches the host). -/
theorem missing_columns_clears (surface : List SVGElem)
    (dv : Option DataViewModel) (vp : ℚ × ℚ) (bars : BarSettingsCard)
    (bub : VarianceBubbleCard) (d3 : D3)
    (h : dv = none ∨ (∃ d, dv = some d ∧ d.categorical = none) ∨
         (∃ d c, dv = some d ∧ d.categorical = some c ∧
           (c.categories = none ∨ c.values = none))) :
    update surface dv vp bars bub d3 = [] := by
  rcases h with rfl | ⟨d, rfl, hd⟩ | ⟨d, c, rfl, hd, hc⟩
  · rfl
  · simp [update, hd, clearChart]
  · rcases hc with hc | hc
    · cases hv : c.values <;> simp [update, hd, hc, hv, clearChart]
    · cases hcat : c.categories <;> simp [update, hd, hc, hcat, clearChart]

/-- Witness for the C8 theorem: an absent data view clears a non-empty
surface. -/
theorem missing_columns_clears_witness :
    ((none : Option DataViewModel) = none ∨
      (∃ d, (none : Option DataViewModel) = some d ∧ d.categorical = none) ∨
      (∃ d c, (none : Option DataViewModel) = some d ∧ d.categorical = some c ∧
        (c.categories = none ∨ c.values = none))) ∧
    update [SVGElem.yAxis] none ((200 : ℚ), (200 : ℚ)) ⟨"", "", false, 11⟩
      ⟨true, "", "", 12, 1, 2⟩
      ⟨fun _ _ => (fun _ => some 0, 10), fun _ _ _ q => q, fun _ => "",
        fun _ => ""⟩ = [] :=
  ⟨Or.inl rfl, missing_columns_clears _ _ _ _ _ _ (Or.inl rfl)⟩

/-- C9: update is an idempotent reconstruction from current inputs: a
second update with identical arguments leaves exactly the elements a
single update leaves, because every path first clears the previous
drawing (the result never depends on the previous surface contents). -/
theorem update_idempotent (surface : List SVGElem) (dv : Option DataViewModel)
    (vp : ℚ × ℚ) (bars : BarSettingsCard) (bub : VarianceBubbleCard)
    (d3 : D3) :
    update (update surface dv vp bars bub d3) dv vp bars bub d3
      = update surface dv vp bars bub d3 := by
  have key : ∀ s1 s2 : List SVGElem,
      update s1 dv vp bars bub d3 = update s2 dv vp bars bub d3 := by
    intro s1 s2
    cases dv with
    | none => rfl
    | some d =>
      cases hd : d.categorical with
      | none => simp [update, hd, clearChart]
      | some c =>
        cases hcat : c.categories <;> cases hv : c.values <;>
          simp [update, hd, hcat, hv, renderChart, clearChart]
  exact key _ _

end VarianceBarChart
